import Mathlib

/-!
# Interpolated relative-pose constraint (2D anchors, 3D target)

A shallow embedding of
`cartographer/pose_graph/constraint/interpolated_relative_pose_constraint_2d.cc`.

* The pose store (`Nodes`) is a pair of key/value maps.
* A pointer into the pose store is the map entry it points at; the `data()` pointer of a
  parameter array is a `Block`, identified by the map and the key of the node that owns it.
* `ceres::Problem` is external: a `Problem` is the sequence of calls it has received.
* The `double` values stored in a pose are carried as rationals; no arithmetic is done on them.
-/

namespace cartographer
namespace pose_graph

/-- Modelled from the spec: `NodeId` (declared in a header that is not part of the sources) is
an opaque key identifying a node. -/
structure NodeId where
  key : Nat
  deriving DecidableEq, Repr

/-- Modelled from the spec: `ConstraintId` is an opaque identifier carried for bookkeeping. -/
structure ConstraintId where
  key : Nat
  deriving DecidableEq, Repr

/-- A `std::array<double, n>`: exactly `n` values. -/
abbrev StdArray (n : Nat) := { l : List ℚ // l.length = n }

/-- The `size()` of a `std::array<double, n>`. -/
def StdArray.size {n : Nat} (_a : StdArray n) : Nat := n

/-- Modelled from the spec: `Pose2D` is a 3-component vector (x, y, heading) plus the
`constant` flag. -/
structure Pose2D where
  pose_2d : StdArray 3
  constant : Bool
  deriving DecidableEq

/-- Modelled from the spec: `Pose3D` is a 3-component translation, a 4-component rotation and
the `constant` flag. -/
structure Pose3D where
  translation : StdArray 3
  rotation : StdArray 4
  constant : Bool
  deriving DecidableEq

/-- Modelled from the spec: the pose store, a map `NodeId → Pose2D` and a separate map
`NodeId → Pose3D`. A map is its list of entries; a lookup takes the first entry with the key. -/
structure Nodes where
  pose_2d_nodes : List (NodeId × Pose2D)
  pose_3d_nodes : List (NodeId × Pose3D)
  deriving DecidableEq

/-- Modelled from the spec: `common::FindOrNull` (in `common/utils.h`, not part of the sources)
looks the key up and returns a pointer to the stored node, or null when the key is absent.
The pointer is the entry found. -/
def FindOrNull {V : Type} (map : List (NodeId × V)) (key : NodeId) : Option (NodeId × V) :=
  map.find? (fun kv => decide (kv.1 = key))

/-- The address `data()` of a parameter array that lives in the pose store. -/
inductive Block where
  | pose_2d (node : NodeId)
  | translation (node : NodeId)
  | rotation (node : NodeId)
  deriving DecidableEq, Repr

/-- The pointer `pose->mutable_pose_2d()->data()` for a pointer into `pose_2d_nodes`. -/
def mutable_pose_2d_data (pose : NodeId × Pose2D) : Block := Block.pose_2d pose.1

/-- The pointer `pose->mutable_translation()->data()` for a pointer into `pose_3d_nodes`. -/
def mutable_translation_data (pose : NodeId × Pose3D) : Block := Block.translation pose.1

/-- The pointer `pose->mutable_rotation()->data()` for a pointer into `pose_3d_nodes`. -/
def mutable_rotation_data (pose : NodeId × Pose3D) : Block := Block.rotation pose.1

namespace proto

/-- Modelled from the spec: the serialized form of a `NodeId`. -/
structure NodeId where
  key : Nat
  deriving DecidableEq, Repr

/-- Modelled from the spec: the loss-function descriptor of a constraint. -/
structure LossFunction where
  tag : Nat
  deriving DecidableEq, Repr

end proto

/-- Modelled from the spec: the cost functor `InterpolatedRelativePoseCost2D` owns a parameter
block fixed at construction. -/
structure InterpolatedRelativePoseCost2D where
  parameters : List ℚ
  deriving DecidableEq

/-- A call received by the optimizer adapter (`ceres::Problem`). -/
inductive Call where
  | AddParameterBlock (values : Block) (size : Nat)
  | SetParameterBlockConstant (values : Block)
  | AddResidualBlock (cost : InterpolatedRelativePoseCost2D) (loss : proto.LossFunction)
      (parameter_blocks : List Block)
  deriving DecidableEq

/-- The optimizer adapter, opaque to this layer: the calls issued to it so far, oldest first. -/
structure Problem where
  calls : List Call
  deriving DecidableEq

/-- The call `problem->AddParameterBlock(values, size)`. -/
def Problem.AddParameterBlock (problem : Problem) (values : Block) (size : Nat) : Problem :=
  { calls := problem.calls ++ [Call.AddParameterBlock values size] }

/-- The call `problem->SetParameterBlockConstant(values)`. -/
def Problem.SetParameterBlockConstant (problem : Problem) (values : Block) : Problem :=
  { calls := problem.calls ++ [Call.SetParameterBlockConstant values] }

/-- The call `problem->AddResidualBlock(cost, loss, x0, x1, x2, x3)`. -/
def Problem.AddResidualBlock (problem : Problem) (cost : InterpolatedRelativePoseCost2D)
    (loss : proto.LossFunction) (parameter_blocks : List Block) : Problem :=
  { calls := problem.calls ++ [Call.AddResidualBlock cost loss parameter_blocks] }

/-- The function `AddPose3DParameters(Pose3D* pose, ceres::Problem* problem)`. -/
def AddPose3DParameters (pose : NodeId × Pose3D) (problem : Problem) : Problem :=
  let transation := mutable_translation_data pose
  let rotation := mutable_rotation_data pose
  let problem := problem.AddParameterBlock transation pose.2.translation.size
  let problem := problem.AddParameterBlock rotation pose.2.rotation.size
  if pose.2.constant then
    let problem := problem.SetParameterBlockConstant transation
    problem.SetParameterBlockConstant rotation
  else problem

/-- The function `AddPose2DParameters(Pose2D* pose, ceres::Problem* problem)`. -/
def AddPose2DParameters (pose : NodeId × Pose2D) (problem : Problem) : Problem :=
  let pose_2d := mutable_pose_2d_data pose
  let problem := problem.AddParameterBlock pose_2d pose.2.pose_2d.size
  if pose.2.constant then problem.SetParameterBlockConstant pose_2d else problem

/-- The class `InterpolatedRelativePoseConstraint2D`; `id` and `loss_function_proto` are the
members of the base class `Constraint`. The AutoDiff wrapper `ceres_cost_` is determined by
`cost_`. -/
structure InterpolatedRelativePoseConstraint2D where
  id : ConstraintId
  loss_function_proto : proto.LossFunction
  first_start_ : NodeId
  first_end_ : NodeId
  second_ : NodeId
  cost_ : InterpolatedRelativePoseCost2D
  deriving DecidableEq

namespace InterpolatedRelativePoseConstraint2D

/-- Modelled from the spec: `Constraint::ceres_loss()` (base class, not part of the sources)
gives the loss function built from the constraint's loss descriptor. -/
def ceres_loss (c : InterpolatedRelativePoseConstraint2D) : proto.LossFunction :=
  c.loss_function_proto

/-- The method
`InterpolatedRelativePoseConstraint2D::AddToOptimizer(Nodes* nodes, ceres::Problem* problem)`:
the pose store and the problem after the call. -/
def AddToOptimizer (c : InterpolatedRelativePoseConstraint2D) (nodes : Nodes)
    (problem : Problem) : Nodes × Problem :=
  match FindOrNull nodes.pose_2d_nodes c.first_start_ with
  | none => (nodes, problem)
  | some first_node_start =>
    match FindOrNull nodes.pose_2d_nodes c.first_end_ with
    | none => (nodes, problem)
    | some first_node_end =>
      match FindOrNull nodes.pose_3d_nodes c.second_ with
      | none => (nodes, problem)
      | some second_node =>
        if first_node_start.2.constant && first_node_end.2.constant &&
            second_node.2.constant then
          (nodes, problem)
        else
          let problem := AddPose2DParameters first_node_start problem
          let problem := AddPose2DParameters first_node_end problem
          let problem := AddPose3DParameters second_node problem
          (nodes, problem.AddResidualBlock c.cost_ c.ceres_loss
            [mutable_pose_2d_data first_node_start, mutable_pose_2d_data first_node_end,
             mutable_translation_data second_node, mutable_rotation_data second_node])

/-- The calls one invocation of `AddToOptimizer` sends to the adapter, in order: the calls
received by a problem that had received none. -/
def IssuedCalls (c : InterpolatedRelativePoseConstraint2D) (nodes : Nodes) : List Call :=
  (c.AddToOptimizer nodes { calls := [] }).2.calls

/-- The constraint reaches the registration code: its three nodes are found and they are not
all constant. -/
def Registers (c : InterpolatedRelativePoseConstraint2D) (nodes : Nodes) : Prop :=
  ∃ first_node_start first_node_end second_node,
    FindOrNull nodes.pose_2d_nodes c.first_start_ = some first_node_start ∧
    FindOrNull nodes.pose_2d_nodes c.first_end_ = some first_node_end ∧
    FindOrNull nodes.pose_3d_nodes c.second_ = some second_node ∧
    ¬ (first_node_start.2.constant = true ∧ first_node_end.2.constant = true ∧
        second_node.2.constant = true)

end InterpolatedRelativePoseConstraint2D

/-- Whether the call is an `AddResidualBlock`. -/
def Call.isAddResidualBlock : Call → Bool
  | Call.AddResidualBlock _ _ _ => true
  | _ => false

/-- The residual blocks the problem has been given, oldest first. -/
def Problem.ResidualBlocks (problem : Problem) : List Call :=
  problem.calls.filter Call.isAddResidualBlock

/-- The number of residual blocks the problem has been given. -/
def Problem.NumResidualBlocks (problem : Problem) : Nat :=
  problem.ResidualBlocks.length

/-- The parameter blocks the constraint's residual block is bound to, in the order of the
`AddResidualBlock` call. -/
def InterpolatedRelativePoseConstraint2D.ParameterBlocks
    (c : InterpolatedRelativePoseConstraint2D) : List Block :=
  [Block.pose_2d c.first_start_, Block.pose_2d c.first_end_,
   Block.translation c.second_, Block.rotation c.second_]

/-- The `constant` flag of the node that owns the block (`false` when no node owns it). -/
def Nodes.OwnerConstant (nodes : Nodes) : Block → Bool
  | Block.pose_2d k => ((FindOrNull nodes.pose_2d_nodes k).map (fun e => e.2.constant)).getD false
  | Block.translation k =>
    ((FindOrNull nodes.pose_3d_nodes k).map (fun e => e.2.constant)).getD false
  | Block.rotation k =>
    ((FindOrNull nodes.pose_3d_nodes k).map (fun e => e.2.constant)).getD false

/-- Modelled from the spec: the state of an optimizer adapter whose registration is idempotent
(§4.2, §4.4): the registered parameter blocks and the constant marks are sets, keyed by the
block address; residual blocks accumulate. -/
structure AdapterState where
  parameter_blocks : Finset Block
  constant_blocks : Finset Block
  residual_blocks : List (InterpolatedRelativePoseCost2D × proto.LossFunction × List Block)

/-- Modelled from the spec: how the idempotent adapter reacts to one call. Registering a known
block, or marking a constant block constant, is a no-op. -/
def AdapterState.Receive (s : AdapterState) : Call → AdapterState
  | Call.AddParameterBlock values _ =>
    { s with parameter_blocks := insert values s.parameter_blocks }
  | Call.SetParameterBlockConstant values =>
    { s with constant_blocks := insert values s.constant_blocks }
  | Call.AddResidualBlock cost loss parameter_blocks =>
    { s with residual_blocks := s.residual_blocks ++ [(cost, loss, parameter_blocks)] }

/-- Modelled from the spec: the state the idempotent adapter is in after the calls the problem
has received. -/
def Problem.Adapter (problem : Problem) : AdapterState :=
  problem.calls.foldl AdapterState.Receive
    { parameter_blocks := ∅, constant_blocks := ∅, residual_blocks := [] }

/-- Two constraints run `AddToOptimizer` one after the other on the same pose store and
problem: `first`, then `second`. -/
def AddBothToOptimizer (first second : InterpolatedRelativePoseConstraint2D) (nodes : Nodes)
    (problem : Problem) : Nodes × Problem :=
  let after_first := first.AddToOptimizer nodes problem
  second.AddToOptimizer after_first.1 after_first.2

/-- The calls `AddPose2DParameters` issues for the block `values` of a node whose flag is
`constant`. -/
def Pose2DCalls (values : Block) (constant : Bool) : List Call :=
  Call.AddParameterBlock values 3 ::
    (if constant then [Call.SetParameterBlockConstant values] else [])

/-- The calls `AddPose3DParameters` issues for the blocks of a node whose flag is
`constant`. -/
def Pose3DCalls (translation rotation : Block) (constant : Bool) : List Call :=
  Call.AddParameterBlock translation 3 :: Call.AddParameterBlock rotation 4 ::
    (if constant then
      [Call.SetParameterBlockConstant translation, Call.SetParameterBlockConstant rotation]
    else [])

/-! ## A small pose store used to instantiate the theorems -/

/-- A pose store: 2D nodes 1 and 2 (free) and 4 (constant); 3D nodes 3 (free) and 5
(constant). -/
def SampleNodes : Nodes :=
  { pose_2d_nodes :=
      [(⟨1⟩, ⟨⟨[0, 0, 0], rfl⟩, false⟩), (⟨2⟩, ⟨⟨[1, 0, 0], rfl⟩, false⟩),
       (⟨4⟩, ⟨⟨[2, 0, 0], rfl⟩, true⟩)]
    pose_3d_nodes :=
      [(⟨3⟩, ⟨⟨[1 / 2, 0, 1 / 5], rfl⟩, ⟨[1, 0, 0, 0], rfl⟩, false⟩),
       (⟨5⟩, ⟨⟨[0, 0, 0], rfl⟩, ⟨[1, 0, 0, 0], rfl⟩, true⟩)] }

/-- A constraint between 2D nodes `first_start`, `first_end` and 3D node `second`. -/
def SampleConstraint (first_start first_end second : Nat) :
    InterpolatedRelativePoseConstraint2D :=
  { id := ⟨7⟩, loss_function_proto := ⟨0⟩, first_start_ := ⟨first_start⟩,
    first_end_ := ⟨first_end⟩, second_ := ⟨second⟩, cost_ := ⟨[1 / 2, 1, 1]⟩ }

/-- A problem that already holds one registered block. -/
def SampleProblem : Problem :=
  { calls := [Call.AddParameterBlock (Block.pose_2d ⟨9⟩) 3] }

open InterpolatedRelativePoseConstraint2D

/-! ## Lookups -/

theorem FindOrNull_key {V : Type} {map : List (NodeId × V)} {key : NodeId} {e : NodeId × V}
    (h : FindOrNull map key = some e) : e.1 = key := by
  have := List.find?_some h
  simpa using this

theorem FindOrNull_eq_none_iff {V : Type} (map : List (NodeId × V)) (key : NodeId) :
    FindOrNull map key = none ↔ key ∉ map.map Prod.fst := by
  unfold FindOrNull
  rw [List.find?_eq_none]
  constructor
  · intro h hk
    obtain ⟨e, he, rfl⟩ := List.mem_map.1 hk
    exact (by simpa using h e he : ¬ e.1 = e.1) rfl
  · intro h e he
    have : e.1 ≠ key := fun hk => h (List.mem_map.2 ⟨e, he, hk⟩)
    simpa using this

/-! ## The four outcomes of `AddToOptimizer` -/

theorem AddToOptimizer_first_start_missing (c : InterpolatedRelativePoseConstraint2D)
    (nodes : Nodes) (problem : Problem)
    (h : FindOrNull nodes.pose_2d_nodes c.first_start_ = none) :
    c.AddToOptimizer nodes problem = (nodes, problem) := by
  simp [AddToOptimizer, h]

theorem AddToOptimizer_first_end_missing (c : InterpolatedRelativePoseConstraint2D)
    (nodes : Nodes) (problem : Problem)
    (h : FindOrNull nodes.pose_2d_nodes c.first_end_ = none) :
    c.AddToOptimizer nodes problem = (nodes, problem) := by
  unfold AddToOptimizer
  rw [h]
  cases FindOrNull nodes.pose_2d_nodes c.first_start_ <;> rfl

theorem AddToOptimizer_second_missing (c : InterpolatedRelativePoseConstraint2D)
    (nodes : Nodes) (problem : Problem)
    (h : FindOrNull nodes.pose_3d_nodes c.second_ = none) :
    c.AddToOptimizer nodes problem = (nodes, problem) := by
  unfold AddToOptimizer
  rw [h]
  cases FindOrNull nodes.pose_2d_nodes c.first_start_ <;>
    cases FindOrNull nodes.pose_2d_nodes c.first_end_ <;> rfl

theorem AddToOptimizer_all_constant (c : InterpolatedRelativePoseConstraint2D)
    (nodes : Nodes) (problem : Problem) {a b : NodeId × Pose2D} {s : NodeId × Pose3D}
    (ha : FindOrNull nodes.pose_2d_nodes c.first_start_ = some a)
    (hb : FindOrNull nodes.pose_2d_nodes c.first_end_ = some b)
    (hs : FindOrNull nodes.pose_3d_nodes c.second_ = some s)
    (hc : a.2.constant = true ∧ b.2.constant = true ∧ s.2.constant = true) :
    c.AddToOptimizer nodes problem = (nodes, problem) := by
  simp [AddToOptimizer, ha, hb, hs, hc.1, hc.2.1, hc.2.2]

theorem AddToOptimizer_registering (c : InterpolatedRelativePoseConstraint2D)
    (nodes : Nodes) (problem : Problem) {a b : NodeId × Pose2D} {s : NodeId × Pose3D}
    (ha : FindOrNull nodes.pose_2d_nodes c.first_start_ = some a)
    (hb : FindOrNull nodes.pose_2d_nodes c.first_end_ = some b)
    (hs : FindOrNull nodes.pose_3d_nodes c.second_ = some s)
    (hc : ¬ (a.2.constant = true ∧ b.2.constant = true ∧ s.2.constant = true)) :
    c.AddToOptimizer nodes problem =
      (nodes, (AddPose3DParameters s (AddPose2DParameters b
          (AddPose2DParameters a problem))).AddResidualBlock c.cost_ c.ceres_loss
        [Block.pose_2d c.first_start_, Block.pose_2d c.first_end_,
         Block.translation c.second_, Block.rotation c.second_]) := by
  have ka := FindOrNull_key ha
  have kb := FindOrNull_key hb
  have ks := FindOrNull_key hs
  have hc' : (a.2.constant && b.2.constant && s.2.constant) = false := by
    cases h1 : a.2.constant <;> cases h2 : b.2.constant <;> cases h3 : s.2.constant <;>
      simp_all
  simp [AddToOptimizer, ha, hb, hs, hc', mutable_pose_2d_data, mutable_translation_data,
    mutable_rotation_data, ka, kb, ks]

/-- When the constraint does not reach the registration code, the call changes nothing. -/
theorem AddToOptimizer_not_registering (c : InterpolatedRelativePoseConstraint2D)
    (nodes : Nodes) (problem : Problem) (h : ¬ c.Registers nodes) :
    c.AddToOptimizer nodes problem = (nodes, problem) := by
  cases ha : FindOrNull nodes.pose_2d_nodes c.first_start_ with
  | none => exact AddToOptimizer_first_start_missing c nodes problem ha
  | some a =>
    cases hb : FindOrNull nodes.pose_2d_nodes c.first_end_ with
    | none => exact AddToOptimizer_first_end_missing c nodes problem hb
    | some b =>
      cases hs : FindOrNull nodes.pose_3d_nodes c.second_ with
      | none => exact AddToOptimizer_second_missing c nodes problem hs
      | some s =>
        by_cases hc : a.2.constant = true ∧ b.2.constant = true ∧ s.2.constant = true
        · exact AddToOptimizer_all_constant c nodes problem ha hb hs hc
        · exact absurd ⟨a, b, s, ha, hb, hs, hc⟩ h

/-! ## Missing node, all-constant skip, frame -/

/-- C1: if the first_start id is absent from the 2D node map, or the first_end id is absent
from the 2D node map, or the second id is absent from the 3D node map, `AddToOptimizer` issues
no call at all: the problem after the call is the problem before it. -/
theorem AddToOptimizer_missing_node (c : InterpolatedRelativePoseConstraint2D) (nodes : Nodes)
    (problem : Problem)
    (h : c.first_start_ ∉ nodes.pose_2d_nodes.map Prod.fst ∨
         c.first_end_ ∉ nodes.pose_2d_nodes.map Prod.fst ∨
         c.second_ ∉ nodes.pose_3d_nodes.map Prod.fst) :
    (c.AddToOptimizer nodes problem).2 = problem ∧ c.IssuedCalls nodes = [] := by
  have key : ∀ p : Problem, c.AddToOptimizer nodes p = (nodes, p) := by
    intro p
    rcases h with h | h | h
    · exact AddToOptimizer_first_start_missing c nodes p ((FindOrNull_eq_none_iff _ _).2 h)
    · exact AddToOptimizer_first_end_missing c nodes p ((FindOrNull_eq_none_iff _ _).2 h)
    · exact AddToOptimizer_second_missing c nodes p ((FindOrNull_eq_none_iff _ _).2 h)
  constructor
  · rw [key]
  · unfold IssuedCalls
    rw [key]

/-- C1 at a concrete input: first_start and second are in the store, first_end (node 8) is
not. -/
theorem AddToOptimizer_missing_node_witness :
    ((SampleConstraint 1 8 3).AddToOptimizer SampleNodes SampleProblem).2 = SampleProblem ∧
      (SampleConstraint 1 8 3).IssuedCalls SampleNodes = [] :=
  AddToOptimizer_missing_node (SampleConstraint 1 8 3) SampleNodes SampleProblem
    (Or.inr (Or.inl (by decide)))

/-- C2: when first_start, first_end and second are all found and all three are marked
constant, `AddToOptimizer` issues no call: the problem is left unchanged. -/
theorem AddToOptimizer_all_constant_skip (c : InterpolatedRelativePoseConstraint2D)
    (nodes : Nodes) (problem : Problem) (a b : NodeId × Pose2D) (s : NodeId × Pose3D)
    (ha : FindOrNull nodes.pose_2d_nodes c.first_start_ = some a)
    (hb : FindOrNull nodes.pose_2d_nodes c.first_end_ = some b)
    (hs : FindOrNull nodes.pose_3d_nodes c.second_ = some s)
    (hca : a.2.constant = true) (hcb : b.2.constant = true) (hcs : s.2.constant = true) :
    (c.AddToOptimizer nodes problem).2 = problem ∧ c.IssuedCalls nodes = [] := by
  constructor
  · rw [AddToOptimizer_all_constant c nodes problem ha hb hs ⟨hca, hcb, hcs⟩]
  · unfold IssuedCalls
    rw [AddToOptimizer_all_constant c nodes _ ha hb hs ⟨hca, hcb, hcs⟩]

/-- C2 at a concrete input: 2D node 4 and 3D node 5 are constant. -/
theorem AddToOptimizer_all_constant_skip_witness :
    ((SampleConstraint 4 4 5).AddToOptimizer SampleNodes SampleProblem).2 = SampleProblem ∧
      (SampleConstraint 4 4 5).IssuedCalls SampleNodes = [] :=
  AddToOptimizer_all_constant_skip (SampleConstraint 4 4 5) SampleNodes SampleProblem
    (⟨4⟩, ⟨⟨[2, 0, 0], rfl⟩, true⟩) (⟨4⟩, ⟨⟨[2, 0, 0], rfl⟩, true⟩)
    (⟨5⟩, ⟨⟨[0, 0, 0], rfl⟩, ⟨[1, 0, 0, 0], rfl⟩, true⟩) (by decide) (by decide) (by decide)
    rfl rfl rfl

/-- C6: `AddToOptimizer` never modifies the pose store: in every case the store after the call
is the store before it, so both maps hold the same entries (same ids, same pose values, same
constant flags) and every lookup gives what it gave before. -/
theorem AddToOptimizer_preserves_nodes (c : InterpolatedRelativePoseConstraint2D)
    (nodes : Nodes) (problem : Problem) :
    (c.AddToOptimizer nodes problem).1 = nodes ∧
      (c.AddToOptimizer nodes problem).1.pose_2d_nodes = nodes.pose_2d_nodes ∧
      (c.AddToOptimizer nodes problem).1.pose_3d_nodes = nodes.pose_3d_nodes ∧
      (∀ k, FindOrNull (c.AddToOptimizer nodes problem).1.pose_2d_nodes k =
        FindOrNull nodes.pose_2d_nodes k) ∧
      (∀ k, FindOrNull (c.AddToOptimizer nodes problem).1.pose_3d_nodes k =
        FindOrNull nodes.pose_3d_nodes k) := by
  have key : (c.AddToOptimizer nodes problem).1 = nodes := by
    by_cases h : c.Registers nodes
    · obtain ⟨a, b, s, ha, hb, hs, hc⟩ := h
      rw [AddToOptimizer_registering c nodes problem ha hb hs hc]
    · rw [AddToOptimizer_not_registering c nodes problem h]
  rw [key]
  exact ⟨rfl, rfl, rfl, fun _ => rfl, fun _ => rfl⟩

/-! ## The calls of the registration code -/

theorem AddPose2DParameters_calls (pose : NodeId × Pose2D) (problem : Problem) :
    (AddPose2DParameters pose problem).calls =
      problem.calls ++ Pose2DCalls (Block.pose_2d pose.1) pose.2.constant := by
  unfold AddPose2DParameters Pose2DCalls
  cases pose.2.constant <;>
    simp [Problem.AddParameterBlock, Problem.SetParameterBlockConstant, mutable_pose_2d_data,
      StdArray.size]

theorem AddPose3DParameters_calls (pose : NodeId × Pose3D) (problem : Problem) :
    (AddPose3DParameters pose problem).calls =
      problem.calls ++
        Pose3DCalls (Block.translation pose.1) (Block.rotation pose.1) pose.2.constant := by
  unfold AddPose3DParameters Pose3DCalls
  cases pose.2.constant <;>
    simp [Problem.AddParameterBlock, Problem.SetParameterBlockConstant,
      mutable_translation_data, mutable_rotation_data, StdArray.size]

theorem AddToOptimizer_registering_calls (c : InterpolatedRelativePoseConstraint2D)
    (nodes : Nodes) (problem : Problem) {a b : NodeId × Pose2D} {s : NodeId × Pose3D}
    (ha : FindOrNull nodes.pose_2d_nodes c.first_start_ = some a)
    (hb : FindOrNull nodes.pose_2d_nodes c.first_end_ = some b)
    (hs : FindOrNull nodes.pose_3d_nodes c.second_ = some s)
    (hc : ¬ (a.2.constant = true ∧ b.2.constant = true ∧ s.2.constant = true)) :
    (c.AddToOptimizer nodes problem).2.calls =
      problem.calls ++
        (Pose2DCalls (Block.pose_2d c.first_start_) a.2.constant ++
          (Pose2DCalls (Block.pose_2d c.first_end_) b.2.constant ++
            (Pose3DCalls (Block.translation c.second_) (Block.rotation c.second_)
                s.2.constant ++
              [Call.AddResidualBlock c.cost_ c.ceres_loss c.ParameterBlocks]))) := by
  rw [AddToOptimizer_registering c nodes problem ha hb hs hc]
  simp only [Problem.AddResidualBlock, AddPose3DParameters_calls, AddPose2DParameters_calls,
    FindOrNull_key ha, FindOrNull_key hb, FindOrNull_key hs, ParameterBlocks,
    List.append_assoc]

theorem IssuedCalls_registering (c : InterpolatedRelativePoseConstraint2D)
    (nodes : Nodes) {a b : NodeId × Pose2D} {s : NodeId × Pose3D}
    (ha : FindOrNull nodes.pose_2d_nodes c.first_start_ = some a)
    (hb : FindOrNull nodes.pose_2d_nodes c.first_end_ = some b)
    (hs : FindOrNull nodes.pose_3d_nodes c.second_ = some s)
    (hc : ¬ (a.2.constant = true ∧ b.2.constant = true ∧ s.2.constant = true)) :
    c.IssuedCalls nodes =
      Pose2DCalls (Block.pose_2d c.first_start_) a.2.constant ++
        (Pose2DCalls (Block.pose_2d c.first_end_) b.2.constant ++
          (Pose3DCalls (Block.translation c.second_) (Block.rotation c.second_)
              s.2.constant ++
            [Call.AddResidualBlock c.cost_ c.ceres_loss c.ParameterBlocks])) := by
  unfold IssuedCalls
  rw [AddToOptimizer_registering_calls c nodes _ ha hb hs hc]
  rfl

theorem IssuedCalls_not_registering (c : InterpolatedRelativePoseConstraint2D)
    (nodes : Nodes) (h : ¬ c.Registers nodes) : c.IssuedCalls nodes = [] := by
  unfold IssuedCalls
  rw [AddToOptimizer_not_registering c nodes _ h]

/-- The problem after a call is the problem before it followed by the calls issued. -/
theorem AddToOptimizer_calls (c : InterpolatedRelativePoseConstraint2D) (nodes : Nodes)
    (problem : Problem) :
    (c.AddToOptimizer nodes problem).2.calls = problem.calls ++ c.IssuedCalls nodes := by
  by_cases h : c.Registers nodes
  · obtain ⟨a, b, s, ha, hb, hs, hc⟩ := h
    rw [AddToOptimizer_registering_calls c nodes problem ha hb hs hc,
      IssuedCalls_registering c nodes ha hb hs hc]
  · rw [AddToOptimizer_not_registering c nodes problem h,
      IssuedCalls_not_registering c nodes h, List.append_nil]

theorem ResidualBlocks_Pose2DCalls (values : Block) (constant : Bool) :
    (Pose2DCalls values constant).filter Call.isAddResidualBlock = [] := by
  cases constant <;> simp [Pose2DCalls, Call.isAddResidualBlock]

theorem ResidualBlocks_Pose3DCalls (translation rotation : Block) (constant : Bool) :
    (Pose3DCalls translation rotation constant).filter Call.isAddResidualBlock = [] := by
  cases constant <;> simp [Pose3DCalls, Call.isAddResidualBlock]

/-! ## Residual block -/

/-- C3: when all three nodes are found and not all are constant, `AddToOptimizer` registers
exactly one residual block, bound to the constraint's cost function and loss function, with
parameter blocks first_start's 2D pose, first_end's 2D pose, second's translation, second's
rotation, in this order; in every other case it registers none. The number of residual blocks
grows by one if and only if all nodes are found and not all are constant. -/
theorem AddToOptimizer_residual_block (c : InterpolatedRelativePoseConstraint2D)
    (nodes : Nodes) (problem : Problem) :
    (c.Registers nodes →
      (c.AddToOptimizer nodes problem).2.ResidualBlocks =
        problem.ResidualBlocks ++
          [Call.AddResidualBlock c.cost_ c.ceres_loss
            [Block.pose_2d c.first_start_, Block.pose_2d c.first_end_,
             Block.translation c.second_, Block.rotation c.second_]]) ∧
    (¬ c.Registers nodes →
      (c.AddToOptimizer nodes problem).2.ResidualBlocks = problem.ResidualBlocks) ∧
    ((c.AddToOptimizer nodes problem).2.NumResidualBlocks = problem.NumResidualBlocks + 1 ↔
      c.Registers nodes) := by
  have hyes : c.Registers nodes →
      (c.AddToOptimizer nodes problem).2.ResidualBlocks =
        problem.ResidualBlocks ++
          [Call.AddResidualBlock c.cost_ c.ceres_loss
            [Block.pose_2d c.first_start_, Block.pose_2d c.first_end_,
             Block.translation c.second_, Block.rotation c.second_]] := by
    rintro ⟨a, b, s, ha, hb, hs, hc⟩
    unfold Problem.ResidualBlocks
    rw [AddToOptimizer_registering_calls c nodes problem ha hb hs hc]
    simp [List.filter_append, ResidualBlocks_Pose2DCalls, ResidualBlocks_Pose3DCalls,
      Call.isAddResidualBlock, ParameterBlocks]
  have hno : ¬ c.Registers nodes →
      (c.AddToOptimizer nodes problem).2.ResidualBlocks = problem.ResidualBlocks := by
    intro h
    rw [AddToOptimizer_not_registering c nodes problem h]
  refine ⟨hyes, hno, ?_⟩
  unfold Problem.NumResidualBlocks
  constructor
  · intro h
    by_contra hr
    rw [hno hr] at h
    omega
  · intro hr
    rw [hyes hr]
    simp

/-- C3 at a concrete input: nodes 1, 2 (2D) and 3 (3D) are found and free. -/
theorem AddToOptimizer_residual_block_witness :
    ((SampleConstraint 1 2 3).AddToOptimizer SampleNodes SampleProblem).2.ResidualBlocks =
      SampleProblem.ResidualBlocks ++
        [Call.AddResidualBlock ⟨[1 / 2, 1, 1]⟩ ⟨0⟩
          [Block.pose_2d ⟨1⟩, Block.pose_2d ⟨2⟩, Block.translation ⟨3⟩, Block.rotation ⟨3⟩]] :=
  (AddToOptimizer_residual_block (SampleConstraint 1 2 3) SampleNodes SampleProblem).1
    ⟨_, _, _, rfl, rfl, rfl, by decide⟩

/-! ## Parameter blocks and constant marks -/

theorem mem_Pose2DCalls_add (values blk : Block) (constant : Bool) (size : Nat) :
    Call.AddParameterBlock blk size ∈ Pose2DCalls values constant ↔
      blk = values ∧ size = 3 := by
  cases constant <;> simp [Pose2DCalls]

theorem mem_Pose2DCalls_set (values blk : Block) (constant : Bool) :
    Call.SetParameterBlockConstant blk ∈ Pose2DCalls values constant ↔
      blk = values ∧ constant = true := by
  cases constant <;> simp [Pose2DCalls]

theorem mem_Pose3DCalls_add (translation rotation blk : Block) (constant : Bool)
    (size : Nat) :
    Call.AddParameterBlock blk size ∈ Pose3DCalls translation rotation constant ↔
      (blk = translation ∧ size = 3) ∨ (blk = rotation ∧ size = 4) := by
  cases constant <;> simp [Pose3DCalls]

theorem mem_Pose3DCalls_set (translation rotation blk : Block) (constant : Bool) :
    Call.SetParameterBlockConstant blk ∈ Pose3DCalls translation rotation constant ↔
      (blk = translation ∨ blk = rotation) ∧ constant = true := by
  cases constant <;> simp [Pose3DCalls]

theorem OwnerConstant_pose_2d {nodes : Nodes} {k : NodeId} {a : NodeId × Pose2D}
    (h : FindOrNull nodes.pose_2d_nodes k = some a) :
    nodes.OwnerConstant (Block.pose_2d k) = a.2.constant := by
  simp [Nodes.OwnerConstant, h]

theorem OwnerConstant_translation {nodes : Nodes} {k : NodeId} {s : NodeId × Pose3D}
    (h : FindOrNull nodes.pose_3d_nodes k = some s) :
    nodes.OwnerConstant (Block.translation k) = s.2.constant := by
  simp [Nodes.OwnerConstant, h]

theorem OwnerConstant_rotation {nodes : Nodes} {k : NodeId} {s : NodeId × Pose3D}
    (h : FindOrNull nodes.pose_3d_nodes k = some s) :
    nodes.OwnerConstant (Block.rotation k) = s.2.constant := by
  simp [Nodes.OwnerConstant, h]

/-- The constant marks a registering call issues: the blocks of the constraint whose owner is
constant. -/
theorem mem_IssuedCalls_set (c : InterpolatedRelativePoseConstraint2D)
    (nodes : Nodes) {a b : NodeId × Pose2D} {s : NodeId × Pose3D}
    (ha : FindOrNull nodes.pose_2d_nodes c.first_start_ = some a)
    (hb : FindOrNull nodes.pose_2d_nodes c.first_end_ = some b)
    (hs : FindOrNull nodes.pose_3d_nodes c.second_ = some s)
    (hc : ¬ (a.2.constant = true ∧ b.2.constant = true ∧ s.2.constant = true))
    (values : Block) :
    Call.SetParameterBlockConstant values ∈ c.IssuedCalls nodes ↔
      values ∈ c.ParameterBlocks ∧ nodes.OwnerConstant values = true := by
  rw [IssuedCalls_registering c nodes ha hb hs hc]
  simp only [List.mem_append, mem_Pose2DCalls_set, mem_Pose3DCalls_set, List.mem_singleton,
    ParameterBlocks, List.mem_cons, List.mem_nil_iff, or_false, reduceCtorEq]
  constructor
  · rintro (⟨rfl, h⟩ | ⟨rfl, h⟩ | ⟨rfl | rfl, h⟩)
    · exact ⟨Or.inl rfl, by rw [OwnerConstant_pose_2d ha]; exact h⟩
    · exact ⟨Or.inr (Or.inl rfl), by rw [OwnerConstant_pose_2d hb]; exact h⟩
    · exact ⟨Or.inr (Or.inr (Or.inl rfl)), by rw [OwnerConstant_translation hs]; exact h⟩
    · exact ⟨Or.inr (Or.inr (Or.inr rfl)), by rw [OwnerConstant_rotation hs]; exact h⟩
  · rintro ⟨rfl | rfl | rfl | rfl, h⟩
    · exact Or.inl ⟨rfl, by rw [OwnerConstant_pose_2d ha] at h; exact h⟩
    · exact Or.inr (Or.inl ⟨rfl, by rw [OwnerConstant_pose_2d hb] at h; exact h⟩)
    · exact Or.inr (Or.inr ⟨Or.inl rfl, by rw [OwnerConstant_translation hs] at h; exact h⟩)
    · exact Or.inr (Or.inr ⟨Or.inr rfl, by rw [OwnerConstant_rotation hs] at h; exact h⟩)

/-- The registrations a registering call issues: the four blocks of the constraint, with the
sizes 3, 3, 3, 4. -/
theorem mem_IssuedCalls_add (c : InterpolatedRelativePoseConstraint2D)
    (nodes : Nodes) {a b : NodeId × Pose2D} {s : NodeId × Pose3D}
    (ha : FindOrNull nodes.pose_2d_nodes c.first_start_ = some a)
    (hb : FindOrNull nodes.pose_2d_nodes c.first_end_ = some b)
    (hs : FindOrNull nodes.pose_3d_nodes c.second_ = some s)
    (hc : ¬ (a.2.constant = true ∧ b.2.constant = true ∧ s.2.constant = true))
    (values : Block) (size : Nat) :
    Call.AddParameterBlock values size ∈ c.IssuedCalls nodes ↔
      (values = Block.pose_2d c.first_start_ ∧ size = 3) ∨
      (values = Block.pose_2d c.first_end_ ∧ size = 3) ∨
      (values = Block.translation c.second_ ∧ size = 3) ∨
      (values = Block.rotation c.second_ ∧ size = 4) := by
  rw [IssuedCalls_registering c nodes ha hb hs hc]
  simp only [List.mem_append, mem_Pose2DCalls_add, mem_Pose3DCalls_add, List.mem_singleton,
    reduceCtorEq, or_false]

/-- C4: when all three nodes are found and not all are constant, `AddToOptimizer` registers a
parameter block for every resolved node, constant or not: the 3-component pose vector of
first_start and of first_end, and the translation (3) and the rotation (4) of second as two
blocks, and nothing else. It marks a block constant if and only if the block is one of those
and the node that owns it is constant in the pose store. -/
theorem AddToOptimizer_parameter_blocks (c : InterpolatedRelativePoseConstraint2D)
    (nodes : Nodes) (problem : Problem) (a b : NodeId × Pose2D) (s : NodeId × Pose3D)
    (ha : FindOrNull nodes.pose_2d_nodes c.first_start_ = some a)
    (hb : FindOrNull nodes.pose_2d_nodes c.first_end_ = some b)
    (hs : FindOrNull nodes.pose_3d_nodes c.second_ = some s)
    (hc : ¬ (a.2.constant = true ∧ b.2.constant = true ∧ s.2.constant = true)) :
    (c.AddToOptimizer nodes problem).2.calls = problem.calls ++ c.IssuedCalls nodes ∧
    (∀ values size, Call.AddParameterBlock values size ∈ c.IssuedCalls nodes ↔
      (values = Block.pose_2d c.first_start_ ∧ size = 3) ∨
      (values = Block.pose_2d c.first_end_ ∧ size = 3) ∨
      (values = Block.translation c.second_ ∧ size = 3) ∨
      (values = Block.rotation c.second_ ∧ size = 4)) ∧
    (∀ values, Call.SetParameterBlockConstant values ∈ c.IssuedCalls nodes ↔
      values ∈ c.ParameterBlocks ∧ nodes.OwnerConstant values = true) ∧
    nodes.OwnerConstant (Block.pose_2d c.first_start_) = a.2.constant ∧
    nodes.OwnerConstant (Block.pose_2d c.first_end_) = b.2.constant ∧
    nodes.OwnerConstant (Block.translation c.second_) = s.2.constant ∧
    nodes.OwnerConstant (Block.rotation c.second_) = s.2.constant :=
  ⟨AddToOptimizer_calls c nodes problem,
   mem_IssuedCalls_add c nodes ha hb hs hc,
   mem_IssuedCalls_set c nodes ha hb hs hc,
   OwnerConstant_pose_2d ha, OwnerConstant_pose_2d hb,
   OwnerConstant_translation hs, OwnerConstant_rotation hs⟩

/-- C4 at a concrete input: first_start is the constant 2D node 4, first_end the free 2D
node 2, second the free 3D node 3. All four blocks are registered, first_start's is marked
constant, first_end's is not. -/
theorem AddToOptimizer_parameter_blocks_witness :
    ((SampleConstraint 4 2 3).AddToOptimizer SampleNodes SampleProblem).2.calls =
        SampleProblem.calls ++ (SampleConstraint 4 2 3).IssuedCalls SampleNodes ∧
      Call.AddParameterBlock (Block.pose_2d ⟨4⟩) 3 ∈
        (SampleConstraint 4 2 3).IssuedCalls SampleNodes ∧
      Call.AddParameterBlock (Block.rotation ⟨3⟩) 4 ∈
        (SampleConstraint 4 2 3).IssuedCalls SampleNodes ∧
      Call.SetParameterBlockConstant (Block.pose_2d ⟨4⟩) ∈
        (SampleConstraint 4 2 3).IssuedCalls SampleNodes ∧
      Call.SetParameterBlockConstant (Block.pose_2d ⟨2⟩) ∉
        (SampleConstraint 4 2 3).IssuedCalls SampleNodes :=
  have h := AddToOptimizer_parameter_blocks (SampleConstraint 4 2 3) SampleNodes SampleProblem
    (⟨4⟩, ⟨⟨[2, 0, 0], rfl⟩, true⟩) (⟨2⟩, ⟨⟨[1, 0, 0], rfl⟩, false⟩)
    (⟨3⟩, ⟨⟨[1 / 2, 0, 1 / 5], rfl⟩, ⟨[1, 0, 0, 0], rfl⟩, false⟩) rfl rfl rfl (by decide)
  ⟨h.1, (h.2.1 _ _).2 (Or.inl ⟨rfl, rfl⟩),
    (h.2.1 _ _).2 (Or.inr (Or.inr (Or.inr ⟨rfl, rfl⟩))),
    (h.2.2.1 _).2 ⟨by decide, by decide⟩,
    fun hm => absurd ((h.2.2.1 _).1 hm).2 (by decide)⟩

/-! ## Degenerate interpolation -/

/-- C9: when first_start and first_end are the same NodeId, found in the 2D map, with second
found in the 3D map and not all nodes constant, `AddToOptimizer` runs the general registration
code: it issues `AddParameterBlock` twice for the one 2D pose block and registers one residual
block whose first and second parameter blocks are that same block. -/
theorem AddToOptimizer_same_first_node (c : InterpolatedRelativePoseConstraint2D)
    (nodes : Nodes) (problem : Problem) (a : NodeId × Pose2D) (s : NodeId × Pose3D)
    (hsame : c.first_start_ = c.first_end_)
    (ha : FindOrNull nodes.pose_2d_nodes c.first_start_ = some a)
    (hs : FindOrNull nodes.pose_3d_nodes c.second_ = some s)
    (hc : ¬ (a.2.constant = true ∧ s.2.constant = true)) :
    (c.AddToOptimizer nodes problem).2 =
      (AddPose3DParameters s (AddPose2DParameters a
          (AddPose2DParameters a problem))).AddResidualBlock c.cost_ c.ceres_loss
        [Block.pose_2d c.first_start_, Block.pose_2d c.first_start_,
         Block.translation c.second_, Block.rotation c.second_] ∧
    (c.IssuedCalls nodes).count (Call.AddParameterBlock (Block.pose_2d c.first_start_) 3) = 2 ∧
    (c.IssuedCalls nodes).filter Call.isAddResidualBlock =
      [Call.AddResidualBlock c.cost_ c.ceres_loss
        [Block.pose_2d c.first_start_, Block.pose_2d c.first_start_,
         Block.translation c.second_, Block.rotation c.second_]] := by
  have hb : FindOrNull nodes.pose_2d_nodes c.first_end_ = some a := by rw [← hsame]; exact ha
  have hc' : ¬ (a.2.constant = true ∧ a.2.constant = true ∧ s.2.constant = true) :=
    fun h => hc ⟨h.1, h.2.2⟩
  refine ⟨?_, ?_, ?_⟩
  · rw [AddToOptimizer_registering c nodes problem ha hb hs hc', ← hsame]
  · rw [IssuedCalls_registering c nodes ha hb hs hc', ← hsame]
    cases a.2.constant <;> cases s.2.constant <;>
      simp [Pose2DCalls, Pose3DCalls, List.count_cons]
  · rw [IssuedCalls_registering c nodes ha hb hs hc', ← hsame]
    simp [List.filter_append, ResidualBlocks_Pose2DCalls, ResidualBlocks_Pose3DCalls,
      Call.isAddResidualBlock, ParameterBlocks, ← hsame]

/-- C9 at a concrete input: first_start and first_end are both the 2D node 1. -/
theorem AddToOptimizer_same_first_node_witness :
    ((SampleConstraint 1 1 3).IssuedCalls SampleNodes).count
        (Call.AddParameterBlock (Block.pose_2d ⟨1⟩) 3) = 2 ∧
      ((SampleConstraint 1 1 3).IssuedCalls SampleNodes).filter Call.isAddResidualBlock =
        [Call.AddResidualBlock ⟨[1 / 2, 1, 1]⟩ ⟨0⟩
          [Block.pose_2d ⟨1⟩, Block.pose_2d ⟨1⟩, Block.translation ⟨3⟩, Block.rotation ⟨3⟩]] :=
  (AddToOptimizer_same_first_node (SampleConstraint 1 1 3) SampleNodes SampleProblem
    (⟨1⟩, ⟨⟨[0, 0, 0], rfl⟩, false⟩)
    (⟨3⟩, ⟨⟨[1 / 2, 0, 1 / 5], rfl⟩, ⟨[1, 0, 0, 0], rfl⟩, false⟩) rfl rfl rfl (by decide)).2

/-! ## Call order -/

/-- In a list built from two lists in which every constant mark is preceded by the
registration of its block, every constant mark is preceded by the registration of its
block. -/
theorem set_after_add_append (l₁ l₂ : List Call)
    (h₁ : ∀ (i : Nat) (values : Block), l₁[i]? = some (Call.SetParameterBlockConstant values) →
      ∃ j size : Nat, j < i ∧ l₁[j]? = some (Call.AddParameterBlock values size))
    (h₂ : ∀ (i : Nat) (values : Block), l₂[i]? = some (Call.SetParameterBlockConstant values) →
      ∃ j size : Nat, j < i ∧ l₂[j]? = some (Call.AddParameterBlock values size)) :
    ∀ (i : Nat) (values : Block), (l₁ ++ l₂)[i]? = some (Call.SetParameterBlockConstant values) →
      ∃ j size : Nat, j < i ∧ (l₁ ++ l₂)[j]? = some (Call.AddParameterBlock values size) := by
  intro i values h
  by_cases hi : i < l₁.length
  · rw [List.getElem?_append_left hi] at h
    obtain ⟨j, size, hj, hg⟩ := h₁ i values h
    exact ⟨j, size, hj, by rw [List.getElem?_append_left (by omega)]; exact hg⟩
  · rw [List.getElem?_append_right (by omega)] at h
    obtain ⟨j, size, hj, hg⟩ := h₂ _ values h
    refine ⟨j + l₁.length, size, by omega, ?_⟩
    rw [List.getElem?_append_right (by omega)]
    simpa using hg

theorem set_after_add_Pose2DCalls (blk : Block) (constant : Bool) :
    ∀ (i : Nat) (values : Block), (Pose2DCalls blk constant)[i]? = some (Call.SetParameterBlockConstant values) →
      ∃ j size : Nat, j < i ∧
        (Pose2DCalls blk constant)[j]? = some (Call.AddParameterBlock values size) := by
  intro i values h
  cases constant
  · rcases i with _ | _ | i <;> simp [Pose2DCalls] at h
  · rcases i with _ | _ | i <;> simp [Pose2DCalls] at h
    subst h
    exact ⟨0, 3, by omega, by simp [Pose2DCalls]⟩

theorem set_after_add_Pose3DCalls (translation rotation : Block) (constant : Bool) :
    ∀ (i : Nat) (values : Block),
      (Pose3DCalls translation rotation constant)[i]? =
        some (Call.SetParameterBlockConstant values) →
      ∃ j size : Nat, j < i ∧
        (Pose3DCalls translation rotation constant)[j]? =
          some (Call.AddParameterBlock values size) := by
  intro i values h
  cases constant
  · rcases i with _ | _ | _ | i <;> simp [Pose3DCalls] at h
  · rcases i with _ | _ | _ | _ | i <;> simp [Pose3DCalls] at h
    · subst h
      exact ⟨0, 3, by omega, by simp [Pose3DCalls]⟩
    · subst h
      exact ⟨1, 4, by omega, by simp [Pose3DCalls]⟩

theorem set_after_add_residual (call : Call) (h : call.isAddResidualBlock = true) :
    ∀ (i : Nat) (values : Block), [call][i]? = some (Call.SetParameterBlockConstant values) →
      ∃ j size : Nat, j < i ∧ [call][j]? = some (Call.AddParameterBlock values size) := by
  intro i values hi
  rcases i with _ | i
  · simp at hi
    subst hi
    simp [Call.isAddResidualBlock] at h
  · simp at hi

/-- The calls in front of the residual block hold no residual block. -/
theorem not_residual_of_mem_front {values₁ values₂ translation rotation : Block}
    {c₁ c₂ c₃ : Bool} {call : Call}
    (h : call ∈ Pose2DCalls values₁ c₁ ++ (Pose2DCalls values₂ c₂ ++
      Pose3DCalls translation rotation c₃)) :
    call.isAddResidualBlock = false := by
  have hf : (Pose2DCalls values₁ c₁ ++ (Pose2DCalls values₂ c₂ ++
      Pose3DCalls translation rotation c₃)).filter Call.isAddResidualBlock = [] := by
    simp [List.filter_append, ResidualBlocks_Pose2DCalls, ResidualBlocks_Pose3DCalls]
  cases hc : call.isAddResidualBlock with
  | false => rfl
  | true =>
    have : call ∈ (Pose2DCalls values₁ c₁ ++ (Pose2DCalls values₂ c₂ ++
        Pose3DCalls translation rotation c₃)).filter Call.isAddResidualBlock :=
      List.mem_filter.2 ⟨h, hc⟩
    rw [hf] at this
    exact absurd this (List.not_mem_nil _)

/-- C10: in the calls one `AddToOptimizer` invocation issues (the calls it appends to the
problem), every `SetParameterBlockConstant(b)` comes after an `AddParameterBlock` for the same
block `b`; an `AddResidualBlock` call is the last call, names the four blocks of the
constraint, and comes after an `AddParameterBlock` for each block it names; and a registering
invocation ends with that residual block. -/
theorem IssuedCalls_order (c : InterpolatedRelativePoseConstraint2D) (nodes : Nodes)
    (problem : Problem) :
    (c.AddToOptimizer nodes problem).2.calls = problem.calls ++ c.IssuedCalls nodes ∧
    (∀ (i : Nat) (values : Block), (c.IssuedCalls nodes)[i]? = some (Call.SetParameterBlockConstant values) →
      ∃ j size : Nat, j < i ∧
        (c.IssuedCalls nodes)[j]? = some (Call.AddParameterBlock values size)) ∧
    (∀ (i : Nat) cost loss blocks,
      (c.IssuedCalls nodes)[i]? = some (Call.AddResidualBlock cost loss blocks) →
      i + 1 = (c.IssuedCalls nodes).length ∧ blocks = c.ParameterBlocks ∧
      blocks.length = 4 ∧
      ∀ values ∈ blocks, ∃ j size : Nat, j < i ∧
        (c.IssuedCalls nodes)[j]? = some (Call.AddParameterBlock values size)) ∧
    (c.Registers nodes →
      (c.IssuedCalls nodes).getLast? =
        some (Call.AddResidualBlock c.cost_ c.ceres_loss c.ParameterBlocks)) := by
  refine ⟨AddToOptimizer_calls c nodes problem, ?_⟩
  by_cases hr : c.Registers nodes
  · obtain ⟨a, b, s, ha, hb, hs, hc⟩ := hr
    have hreg : c.Registers nodes := ⟨a, b, s, ha, hb, hs, hc⟩
    have hI := IssuedCalls_registering c nodes ha hb hs hc
    refine ⟨?_, ?_, fun _ => ?_⟩
    · rw [hI]
      exact set_after_add_append _ _ (set_after_add_Pose2DCalls _ _)
        (set_after_add_append _ _ (set_after_add_Pose2DCalls _ _)
          (set_after_add_append _ _ (set_after_add_Pose3DCalls _ _ _)
            (set_after_add_residual _ rfl)))
    · intro i cost loss blocks hi
      have hI' : c.IssuedCalls nodes =
          (Pose2DCalls (Block.pose_2d c.first_start_) a.2.constant ++
            (Pose2DCalls (Block.pose_2d c.first_end_) b.2.constant ++
              Pose3DCalls (Block.translation c.second_) (Block.rotation c.second_)
                s.2.constant)) ++
            [Call.AddResidualBlock c.cost_ c.ceres_loss c.ParameterBlocks] := by
        rw [hI]
        simp only [List.append_assoc]
      generalize hfront : Pose2DCalls (Block.pose_2d c.first_start_) a.2.constant ++
            (Pose2DCalls (Block.pose_2d c.first_end_) b.2.constant ++
              Pose3DCalls (Block.translation c.second_) (Block.rotation c.second_)
                s.2.constant) = front at hI'
      have hlt : ¬ i < front.length := by
        intro hlt
        rw [hI', List.getElem?_append_left hlt] at hi
        have hmem : Call.AddResidualBlock cost loss blocks ∈ front :=
          List.mem_iff_getElem?.2 ⟨i, hi⟩
        rw [← hfront] at hmem
        have := not_residual_of_mem_front hmem
        simp [Call.isAddResidualBlock] at this
      have hi' := hi
      rw [hI', List.getElem?_append_right (by omega)] at hi'
      have hidx : i - front.length = 0 := by
        by_contra hne
        obtain ⟨k, hk⟩ := Nat.exists_eq_succ_of_ne_zero hne
        rw [hk] at hi'
        simp at hi'
      rw [hidx] at hi'
      simp only [List.getElem?_cons_zero, Option.some.injEq, Call.AddResidualBlock.injEq]
        at hi'
      obtain ⟨-, -, hblocks⟩ := hi'
      have hieq : i = front.length := by omega
      refine ⟨by rw [hI', List.length_append, List.length_singleton, hieq], hblocks.symm,
        by rw [← hblocks]; rfl, ?_⟩
      intro values hv
      rw [← hblocks] at hv
      have hadd : ∃ size, Call.AddParameterBlock values size ∈ c.IssuedCalls nodes := by
        simp only [ParameterBlocks, List.mem_cons, List.mem_nil_iff,
          or_false] at hv
        rcases hv with rfl | rfl | rfl | rfl
        · exact ⟨3, (mem_IssuedCalls_add c nodes ha hb hs hc _ _).2 (Or.inl ⟨rfl, rfl⟩)⟩
        · exact ⟨3, (mem_IssuedCalls_add c nodes ha hb hs hc _ _).2
            (Or.inr (Or.inl ⟨rfl, rfl⟩))⟩
        · exact ⟨3, (mem_IssuedCalls_add c nodes ha hb hs hc _ _).2
            (Or.inr (Or.inr (Or.inl ⟨rfl, rfl⟩)))⟩
        · exact ⟨4, (mem_IssuedCalls_add c nodes ha hb hs hc _ _).2
            (Or.inr (Or.inr (Or.inr ⟨rfl, rfl⟩)))⟩
      obtain ⟨size, hmem⟩ := hadd
      obtain ⟨j, hj⟩ := List.mem_iff_getElem?.1 hmem
      refine ⟨j, size, ?_, hj⟩
      by_contra hge
      have hjlen : j < (c.IssuedCalls nodes).length := (List.getElem?_eq_some.1 hj).1
      rw [hI', List.length_append, List.length_singleton] at hjlen
      have hji : j = front.length := by omega
      rw [hI', hji, List.getElem?_append_right (le_refl _)] at hj
      simp at hj
    · rw [hI]
      simp only [← List.append_assoc]
      exact List.getLast?_concat _
  · have hI := IssuedCalls_not_registering c nodes hr
    refine ⟨?_, ?_, fun h => absurd h hr⟩
    · intro i values h
      rw [hI] at h
      simp at h
    · intro i cost loss blocks h
      rw [hI] at h
      simp at h

/-- C10 at a concrete input: first_start is the constant 2D node 4; the second call issued is
the constant mark of its block, and the registration of that block comes before it. -/
theorem IssuedCalls_order_witness :
    ((SampleConstraint 4 2 3).IssuedCalls SampleNodes)[1]? =
        some (Call.SetParameterBlockConstant (Block.pose_2d ⟨4⟩)) ∧
      ∃ j size : Nat, j < 1 ∧
        ((SampleConstraint 4 2 3).IssuedCalls SampleNodes)[j]? =
          some (Call.AddParameterBlock (Block.pose_2d ⟨4⟩) size) :=
  ⟨by decide,
    (IssuedCalls_order (SampleConstraint 4 2 3) SampleNodes SampleProblem).2.1 1
      (Block.pose_2d ⟨4⟩) (by decide)⟩

/-! ## Round trip through the descriptor -/

theorem mem_parameter_blocks_foldl (l : List Call) (s : AdapterState) (values : Block) :
    values ∈ (l.foldl AdapterState.Receive s).parameter_blocks ↔
      values ∈ s.parameter_blocks ∨ ∃ size, Call.AddParameterBlock values size ∈ l := by
  induction l generalizing s with
  | nil => simp
  | cons call l ih =>
    rw [List.foldl_cons, ih]
    cases call with
    | AddParameterBlock v n =>
      simp only [AdapterState.Receive, Finset.mem_insert, List.mem_cons,
        Call.AddParameterBlock.injEq]
      constructor
      · rintro ((rfl | h) | ⟨size, h⟩)
        · exact Or.inr ⟨n, Or.inl ⟨rfl, rfl⟩⟩
        · exact Or.inl h
        · exact Or.inr ⟨size, Or.inr h⟩
      · rintro (h | ⟨size, ⟨rfl, -⟩ | h⟩)
        · exact Or.inl (Or.inr h)
        · exact Or.inl (Or.inl rfl)
        · exact Or.inr ⟨size, h⟩
    | SetParameterBlockConstant v => simp [AdapterState.Receive]
    | AddResidualBlock cost loss blocks => simp [AdapterState.Receive]

theorem mem_constant_blocks_foldl (l : List Call) (s : AdapterState) (values : Block) :
    values ∈ (l.foldl AdapterState.Receive s).constant_blocks ↔
      values ∈ s.constant_blocks ∨ Call.SetParameterBlockConstant values ∈ l := by
  induction l generalizing s with
  | nil => simp
  | cons call l ih =>
    rw [List.foldl_cons, ih]
    cases call with
    | AddParameterBlock v n => simp [AdapterState.Receive]
    | SetParameterBlockConstant v =>
      simp only [AdapterState.Receive, Finset.mem_insert, List.mem_cons,
        Call.SetParameterBlockConstant.injEq]
      tauto
    | AddResidualBlock cost loss blocks => simp [AdapterState.Receive]

theorem residual_blocks_foldl (l : List Call) (s : AdapterState) :
    (l.foldl AdapterState.Receive s).residual_blocks.length =
      s.residual_blocks.length + (l.filter Call.isAddResidualBlock).length := by
  induction l generalizing s with
  | nil => simp
  | cons call l ih =>
    rw [List.foldl_cons, ih]
    cases call with
    | AddParameterBlock v n => simp [AdapterState.Receive, Call.isAddResidualBlock]
    | SetParameterBlockConstant v => simp [AdapterState.Receive, Call.isAddResidualBlock]
    | AddResidualBlock cost loss blocks =>
      simp [AdapterState.Receive, Call.isAddResidualBlock]
      omega

/-- The adapter after a call is the adapter before it fed with the calls issued. -/
theorem Adapter_AddToOptimizer (c : InterpolatedRelativePoseConstraint2D) (nodes : Nodes)
    (problem : Problem) :
    (c.AddToOptimizer nodes problem).2.Adapter =
      (c.IssuedCalls nodes).foldl AdapterState.Receive problem.Adapter := by
  unfold Problem.Adapter
  rw [AddToOptimizer_calls, List.foldl_append]

theorem AddToOptimizer_fst (c : InterpolatedRelativePoseConstraint2D) (nodes : Nodes)
    (problem : Problem) : (c.AddToOptimizer nodes problem).1 = nodes := by
  by_cases h : c.Registers nodes
  · obtain ⟨a, b, s, ha, hb, hs, hc⟩ := h
    rw [AddToOptimizer_registering c nodes problem ha hb hs hc]
  · rw [AddToOptimizer_not_registering c nodes problem h]

/-- The blocks a registering call issues a registration for are the blocks of the
constraint. -/
theorem exists_add_iff_mem_ParameterBlocks (c : InterpolatedRelativePoseConstraint2D)
    (nodes : Nodes) (h : c.Registers nodes) (values : Block) :
    (∃ size, Call.AddParameterBlock values size ∈ c.IssuedCalls nodes) ↔
      values ∈ c.ParameterBlocks := by
  obtain ⟨a, b, s, ha, hb, hs, hc⟩ := h
  simp only [mem_IssuedCalls_add c nodes ha hb hs hc, ParameterBlocks, List.mem_cons,
    List.mem_nil_iff, or_false]
  constructor
  · rintro ⟨size, ⟨h, -⟩ | ⟨h, -⟩ | ⟨h, -⟩ | ⟨h, -⟩⟩
    · exact Or.inl h
    · exact Or.inr (Or.inl h)
    · exact Or.inr (Or.inr (Or.inl h))
    · exact Or.inr (Or.inr (Or.inr h))
  · rintro (h | h | h | h)
    · exact ⟨3, Or.inl ⟨h, rfl⟩⟩
    · exact ⟨3, Or.inr (Or.inl ⟨h, rfl⟩)⟩
    · exact ⟨3, Or.inr (Or.inr (Or.inl ⟨h, rfl⟩))⟩
    · exact ⟨4, Or.inr (Or.inr (Or.inr ⟨h, rfl⟩))⟩

theorem mem_parameter_blocks_AddToOptimizer (c : InterpolatedRelativePoseConstraint2D)
    (nodes : Nodes) (problem : Problem) (h : c.Registers nodes) (values : Block) :
    values ∈ (c.AddToOptimizer nodes problem).2.Adapter.parameter_blocks ↔
      values ∈ problem.Adapter.parameter_blocks ∨ values ∈ c.ParameterBlocks := by
  rw [Adapter_AddToOptimizer, mem_parameter_blocks_foldl,
    exists_add_iff_mem_ParameterBlocks c nodes h]

theorem mem_constant_blocks_AddToOptimizer (c : InterpolatedRelativePoseConstraint2D)
    (nodes : Nodes) (problem : Problem) (h : c.Registers nodes) (values : Block) :
    values ∈ (c.AddToOptimizer nodes problem).2.Adapter.constant_blocks ↔
      values ∈ problem.Adapter.constant_blocks ∨
        (values ∈ c.ParameterBlocks ∧ nodes.OwnerConstant values = true) := by
  obtain ⟨a, b, s, ha, hb, hs, hc⟩ := h
  rw [Adapter_AddToOptimizer, mem_constant_blocks_foldl,
    mem_IssuedCalls_set c nodes ha hb hs hc]

theorem residual_blocks_AddToOptimizer (c : InterpolatedRelativePoseConstraint2D)
    (nodes : Nodes) (problem : Problem) (h : c.Registers nodes) :
    (c.AddToOptimizer nodes problem).2.Adapter.residual_blocks.length =
      problem.Adapter.residual_blocks.length + 1 := by
  obtain ⟨a, b, s, ha, hb, hs, hc⟩ := h
  rw [Adapter_AddToOptimizer, residual_blocks_foldl,
    IssuedCalls_registering c nodes ha hb hs hc]
  simp [List.filter_append, ResidualBlocks_Pose2DCalls, ResidualBlocks_Pose3DCalls,
    Call.isAddResidualBlock]

theorem AddBothToOptimizer_snd (c₁ c₂ : InterpolatedRelativePoseConstraint2D) (nodes : Nodes)
    (problem : Problem) :
    (AddBothToOptimizer c₁ c₂ nodes problem).2 =
      (c₂.AddToOptimizer nodes (c₁.AddToOptimizer nodes problem).2).2 := by
  unfold AddBothToOptimizer
  simp only [AddToOptimizer_fst]

/-- C7: under an adapter whose registered blocks and constant marks are sets, when two
registering constraints that share the block `values` run `AddToOptimizer` one after the other
on the same pose store and problem, the shared block is registered by the first call and is
in the registered-block set exactly once after the second, it is marked constant exactly when it was marked before or its owner is constant, the
block set and the constant set are the same for both orders of the two calls, exactly two
residual blocks are added, and running the first constraint twice gives the block set and
constant set of one run. -/
theorem AddToOptimizer_shared_node (c₁ c₂ : InterpolatedRelativePoseConstraint2D)
    (nodes : Nodes) (problem : Problem) (values : Block)
    (h₁ : c₁.Registers nodes) (h₂ : c₂.Registers nodes)
    (hv₁ : values ∈ c₁.ParameterBlocks) (hv₂ : values ∈ c₂.ParameterBlocks) :
    values ∈ (c₁.AddToOptimizer nodes problem).2.Adapter.parameter_blocks ∧
    values ∈ (AddBothToOptimizer c₁ c₂ nodes problem).2.Adapter.parameter_blocks ∧
    Multiset.count values
      (AddBothToOptimizer c₁ c₂ nodes problem).2.Adapter.parameter_blocks.val = 1 ∧
    (values ∈ (AddBothToOptimizer c₁ c₂ nodes problem).2.Adapter.constant_blocks ↔
      values ∈ problem.Adapter.constant_blocks ∨ nodes.OwnerConstant values = true) ∧
    (AddBothToOptimizer c₁ c₂ nodes problem).2.Adapter.parameter_blocks =
      (AddBothToOptimizer c₂ c₁ nodes problem).2.Adapter.parameter_blocks ∧
    (AddBothToOptimizer c₁ c₂ nodes problem).2.Adapter.constant_blocks =
      (AddBothToOptimizer c₂ c₁ nodes problem).2.Adapter.constant_blocks ∧
    (AddBothToOptimizer c₁ c₂ nodes problem).2.Adapter.residual_blocks.length =
      problem.Adapter.residual_blocks.length + 2 ∧
    (AddBothToOptimizer c₁ c₁ nodes problem).2.Adapter.parameter_blocks =
      (c₁.AddToOptimizer nodes problem).2.Adapter.parameter_blocks ∧
    (AddBothToOptimizer c₁ c₁ nodes problem).2.Adapter.constant_blocks =
      (c₁.AddToOptimizer nodes problem).2.Adapter.constant_blocks := by
  have hmem : values ∈ (AddBothToOptimizer c₁ c₂ nodes problem).2.Adapter.parameter_blocks := by
    rw [AddBothToOptimizer_snd, mem_parameter_blocks_AddToOptimizer c₂ nodes _ h₂]
    exact Or.inr hv₂
  refine ⟨(mem_parameter_blocks_AddToOptimizer c₁ nodes _ h₁ values).2 (Or.inr hv₁), hmem,
    ?_, ?_, ?_, ?_, ?_, ?_, ?_⟩
  · exact Multiset.count_eq_one_of_mem (Finset.nodup _) hmem
  · rw [AddBothToOptimizer_snd, mem_constant_blocks_AddToOptimizer c₂ nodes _ h₂,
      mem_constant_blocks_AddToOptimizer c₁ nodes _ h₁]
    constructor
    · rintro ((h | ⟨-, h⟩) | ⟨-, h⟩)
      · exact Or.inl h
      · exact Or.inr h
      · exact Or.inr h
    · rintro (h | h)
      · exact Or.inl (Or.inl h)
      · exact Or.inr ⟨hv₂, h⟩
  · ext b
    rw [AddBothToOptimizer_snd, AddBothToOptimizer_snd,
      mem_parameter_blocks_AddToOptimizer c₂ nodes _ h₂,
      mem_parameter_blocks_AddToOptimizer c₁ nodes _ h₁,
      mem_parameter_blocks_AddToOptimizer c₁ nodes _ h₁,
      mem_parameter_blocks_AddToOptimizer c₂ nodes _ h₂]
    tauto
  · ext b
    rw [AddBothToOptimizer_snd, AddBothToOptimizer_snd,
      mem_constant_blocks_AddToOptimizer c₂ nodes _ h₂,
      mem_constant_blocks_AddToOptimizer c₁ nodes _ h₁,
      mem_constant_blocks_AddToOptimizer c₁ nodes _ h₁,
      mem_constant_blocks_AddToOptimizer c₂ nodes _ h₂]
    tauto
  · rw [AddBothToOptimizer_snd, residual_blocks_AddToOptimizer c₂ nodes _ h₂,
      residual_blocks_AddToOptimizer c₁ nodes _ h₁]
  · ext b
    rw [AddBothToOptimizer_snd, mem_parameter_blocks_AddToOptimizer c₁ nodes _ h₁,
      mem_parameter_blocks_AddToOptimizer c₁ nodes _ h₁]
    tauto
  · ext b
    rw [AddBothToOptimizer_snd, mem_constant_blocks_AddToOptimizer c₁ nodes _ h₁,
      mem_constant_blocks_AddToOptimizer c₁ nodes _ h₁]
    tauto

/-- C7 at a concrete input: the constraints (1, 2, 3) and (2, 4, 3) share the 2D node 2. -/
theorem AddToOptimizer_shared_node_witness :
    Multiset.count (Block.pose_2d ⟨2⟩)
        (AddBothToOptimizer (SampleConstraint 1 2 3) (SampleConstraint 2 4 3) SampleNodes
          SampleProblem).2.Adapter.parameter_blocks.val = 1 ∧
      (AddBothToOptimizer (SampleConstraint 1 2 3) (SampleConstraint 2 4 3) SampleNodes
          SampleProblem).2.Adapter.parameter_blocks =
        (AddBothToOptimizer (SampleConstraint 2 4 3) (SampleConstraint 1 2 3) SampleNodes
          SampleProblem).2.Adapter.parameter_blocks ∧
      (AddBothToOptimizer (SampleConstraint 1 2 3) (SampleConstraint 2 4 3) SampleNodes
          SampleProblem).2.Adapter.residual_blocks.length =
        SampleProblem.Adapter.residual_blocks.length + 2 :=
  have h := AddToOptimizer_shared_node (SampleConstraint 1 2 3) (SampleConstraint 2 4 3)
    SampleNodes SampleProblem (Block.pose_2d ⟨2⟩) ⟨_, _, _, rfl, rfl, rfl, by decide⟩
    ⟨_, _, _, rfl, rfl, rfl, by decide⟩ (by decide) (by decide)
  ⟨h.2.2.1, h.2.2.2.2.1, h.2.2.2.2.2.2.1⟩

end pose_graph
end cartographer
